import Mathlib

set_option maxRecDepth 100000

/-!
Shallow embedding of the ContractMind backend's intent-to-transaction
pipeline, translated from the Python sources under `backend/app`:

* `services/blockchain_service.py` — `detect_contract_type`
* `services/execution_service.py`  — transaction preparation and routing
* `services/ai_service.py`         — `parse_user_intent` and its keyword fallback
* `services/intent_service.py`     — action-to-function mapping (keccak selectors)
* `api/v1/chat.py`                 — chat endpoint, LLM/keyword parsing, parameter
  coercion, and the read-only query executor

External collaborators (the web3 library, the LLM vendor SDK, the RPC node,
the database) are modelled as explicit inputs: a fallible external call is an
`Except String α` argument, where `.error e` stands for a raised exception
whose `str(e)` is `e`.  Python machine floats are modelled as exact rationals
(`ℚ`); IEEE rounding is outside this development.  Strings are treated as
ASCII for case folding, matching the data these code paths handle.
-/

/-- Python `str.lower()` restricted to ASCII (the identifiers and keywords
these code paths compare are ASCII). -/
def toLowerStr (s : String) : String :=
  String.mk (s.data.map Char.toLower)

/-- `needle` occurs as a contiguous sublist of `hay`
(the Python `needle in hay` substring test). -/
def listIsInfixOf (needle hay : List Char) : Bool :=
  match hay with
  | [] => needle.isEmpty
  | _ :: t => needle.isPrefixOf hay || listIsInfixOf needle t

/-- Python substring containment `needle in hay` on strings. -/
def strContains (hay needle : String) : Bool :=
  listIsInfixOf needle.data hay.data

/-- Python truthiness of an optional string: `None` and `""` are falsy. -/
def truthyOptStr : Option String → Bool
  | none => false
  | some s => s ≠ ""

/-- Python `str.capitalize()` (ASCII): first character upper-cased, the rest
lower-cased. -/
def pyCapitalize (s : String) : String :=
  match s.data with
  | [] => s
  | c :: rest => String.mk (c.toUpper :: rest.map Char.toLower)

/-- A Python runtime value as it appears in parsed-intent parameter
dictionaries.  Floats are carried as exact rationals. -/
inductive PyValue where
  | vInt : Int → PyValue
  | vFloat : ℚ → PyValue
  | vBool : Bool → PyValue
  | vStr : String → PyValue
  | vNone : PyValue
deriving DecidableEq, Repr

/-- Digits of a decimal numeral, `none` if empty or any non-digit. -/
def digitsToNat : List Char → Option Nat
  | [] => none
  | cs =>
    if cs.all Char.isDigit then
      some (cs.foldl (fun acc c => 10 * acc + (c.toNat - 48)) 0)
    else none

/-- Python `int(s)` on a string: optional surrounding whitespace, optional
sign, then decimal digits; `none` models a raised `ValueError`
(in particular `int("1.5")` raises). -/
def pyIntOfString (s : String) : Option Int :=
  let ws : Char → Bool := fun c => c = ' ' ∨ c = '\t' ∨ c = '\n' ∨ c = '\r'
  let cs := ((s.data.dropWhile ws).reverse.dropWhile ws).reverse
  match cs with
  | '+' :: rest => (digitsToNat rest).map Int.ofNat
  | '-' :: rest => (digitsToNat rest).map (fun n => -(n : Int))
  | rest => (digitsToNat rest).map Int.ofNat

/-- The `uint256` branch of the parameter-coercion loop in
`chat._parse_message_with_context` (chat.py lines 1017-1037):

```
elif param_type == "uint256" and isinstance(param_value, (int, float, str)):
    try:
        amount = int(param_value) if isinstance(param_value, str) else param_value
        params[param_name] = amount * (10**18)
    except (ValueError, TypeError):
        pass  # Keep original value if conversion fails
```

A Python `bool` is an `int` (`True * 10**18 == 10**18`), so `vBool` is
scaled too; a string is first converted with `int(...)`, which fails on
non-integer text and then leaves the value untouched. -/
def coerceUint256 (v : PyValue) : PyValue :=
  match v with
  | .vInt n => .vInt (n * 10 ^ 18)
  | .vFloat q => .vFloat (q * 10 ^ 18)
  | .vBool b => .vInt ((if b then 1 else 0) * 10 ^ 18)
  | .vStr s =>
    match pyIntOfString s with
    | some n => .vInt (n * 10 ^ 18)
    | none => .vStr s
  | .vNone => .vNone

/-- A raw value the coercion rule treats as a numeric amount:
an int, a float, or a string `int(...)` accepts. -/
def isNumericRaw : PyValue → Bool
  | .vInt _ => true
  | .vFloat _ => true
  | .vStr s => (pyIntOfString s).isSome
  | _ => false

/-- The numeric content of a value, as an exact rational. -/
def valueToRat : PyValue → Option ℚ
  | .vInt n => some (n : ℚ)
  | .vFloat q => some q
  | .vStr s => (pyIntOfString s).map (fun n => (n : ℚ))
  | _ => none

/-- `blockchain_service.detect_contract_type` (blockchain_service.py lines
324-359).  The `trustedHub()` probe is an explicit input: `.error e` models a
raised exception (revert, missing function, decode error), `.ok a` a decoded
address, represented as its 160-bit numeric value, so the Python test
`hub_address and hub_address != "0x0000000000000000000000000000000000000000"`
becomes `a ≠ 0`. -/
def detect_contract_type (probe : Except String Nat) : String :=
  match probe with
  | .ok hub_address => if hub_address ≠ 0 then "hub-aware" else "regular"
  | .error _ => "regular"

/-- `models.schemas.ParsedIntent`: the ai_service parse result. -/
structure ParsedIntent where
  action : String
  protocol : String
  amount : Option String := none
  token : Option String := none
  params : List (String × PyValue) := []
  confidence : ℚ := 1
deriving DecidableEq, Repr

/-- `models.schemas.TransactionRequest`. -/
structure TransactionRequest where
  agent_id : String
  target_address : String
  function_name : String
  function_selector : String
  calldata : String
  execution_mode : String
deriving DecidableEq, Repr

/-- The `preview` dictionary attached to a prepared transaction. -/
structure TxPreview where
  action : String
  protocol : String
  route : String
  features : List String
  amount : Option String := none
deriving DecidableEq, Repr

/-- `models.schemas.PreparedTransaction`. -/
structure PreparedTransaction where
  «to» : String
  data : String
  value : String := "0x0"
  gas : Nat
  gas_price : Option Nat := none
  route : String
  description : String
  preview : TxPreview
deriving DecidableEq, Repr

/-- `execution_service._build_description`.  Python truthiness of
`intent.amount and intent.token` is `truthyOptStr` on each. -/
def build_description (intent : Option ParsedIntent) (tx_request : Option TransactionRequest) :
    String :=
  match intent with
  | some i =>
    if i.action = "stake" ∧ truthyOptStr i.amount ∧ truthyOptStr i.token then
      "Stake " ++ (i.amount.getD "") ++ " " ++ (i.token.getD "") ++ " on " ++ i.protocol
    else if i.action = "withdraw" ∧ truthyOptStr i.amount ∧ truthyOptStr i.token then
      "Withdraw " ++ (i.amount.getD "") ++ " " ++ (i.token.getD "") ++ " from " ++ i.protocol
    else if i.action = "swap" then
      "Swap tokens on " ++ i.protocol
    else if i.action = "claim" then
      "Claim rewards from " ++ i.protocol
    else
      pyCapitalize i.action ++ " on " ++ i.protocol
  | none =>
    match tx_request with
    | some t => "Execute " ++ t.function_name ++ " on contract"
    | none => "Execute blockchain transaction"

/-- The optional `preview["amount"]` entry: set only when both
`intent.amount` and `intent.token` are truthy. -/
def previewAmount (intent : Option ParsedIntent) : Option String :=
  match intent with
  | some i =>
    if truthyOptStr i.amount ∧ truthyOptStr i.token then
      some ((i.amount.getD "") ++ " " ++ (i.token.getD ""))
    else none
  | none => none

/-- `execution_service._prepare_hub_transaction` (execution_service.py lines
43-119).  `hub_address` is the configured `settings.CONTRACT_MIND_HUB_ADDRESS`;
`hub_data` is the calldata web3 builds for `hub.executeOnTarget(...)`;
`gas_est` and `gas_price_res` are the two independently fallible RPC calls. -/
def prepare_hub_transaction (hub_address : String) (tx_request : TransactionRequest)
    (intent : Option ParsedIntent) (hub_data : String)
    (gas_est : Except String Nat) (gas_price_res : Except String Nat) :
    PreparedTransaction :=
  let gas_estimate := match gas_est with
    | .ok g => g
    | .error _ => 500000
  let gas_price := match gas_price_res with
    | .ok p => some p
    | .error _ => none
  { «to» := hub_address
    data := hub_data
    value := "0x0"
    gas := gas_estimate
    gas_price := gas_price
    route := "hub"
    description := build_description intent (some tx_request)
    preview :=
      { action := match intent with
          | some i => pyCapitalize i.action
          | none => tx_request.function_name
        protocol := match intent with
          | some i => i.protocol
          | none => "Unknown"
        route := "ContractMind Hub"
        features := ["Rate limiting protection", "On-chain analytics", "Protocol fee: 0.1%"]
        amount := previewAmount intent } }

/-- `execution_service._prepare_direct_transaction` (execution_service.py
lines 121-181). -/
def prepare_direct_transaction (tx_request : TransactionRequest)
    (intent : Option ParsedIntent)
    (gas_est : Except String Nat) (gas_price_res : Except String Nat) :
    PreparedTransaction :=
  let gas_estimate := match gas_est with
    | .ok g => g
    | .error _ => 300000
  let gas_price := match gas_price_res with
    | .ok p => some p
    | .error _ => none
  { «to» := tx_request.target_address
    data := tx_request.calldata
    value := "0x0"
    gas := gas_estimate
    gas_price := gas_price
    route := "direct"
    description := build_description intent (some tx_request)
    preview :=
      { action := match intent with
          | some i => pyCapitalize i.action
          | none => tx_request.function_name
        protocol := match intent with
          | some i => i.protocol
          | none => "Unknown"
        route := "Direct (no intermediary)"
        features := ["Lower gas cost", "Standard Web3 transaction", "Full compatibility"]
        amount := previewAmount intent } }

/-- `execution_service.prepare_transaction`: route on `execution_mode`. -/
def prepare_transaction (hub_address : String) (tx_request : TransactionRequest)
    (intent : Option ParsedIntent) (hub_data : String)
    (gas_est : Except String Nat) (gas_price_res : Except String Nat) :
    PreparedTransaction :=
  if tx_request.execution_mode = "hub" then
    prepare_hub_transaction hub_address tx_request intent hub_data gas_est gas_price_res
  else
    prepare_direct_transaction tx_request intent gas_est gas_price_res

/-- A regex word character (`\w` with ASCII text): letter, digit or
underscore. -/
def isWordChar (c : Char) : Bool :=
  c.isAlpha || c.isDigit || c = '_'

/-- Try to match `\d+(?:\.\d+)?` anchored at the current position, `prev`
being the character just before it (`none` at the start of the text).  The
position must sit at a word boundary and start with a digit.  Backtracking of
the trailing `\b` of `\b(\d+(?:\.\d+)?)\b` is resolved as the engine does:
drop the optional fractional part if the boundary after it fails — a boundary
after the integer digits is then guaranteed by the following dot. -/
def matchAmountAt (prev : Option Char) (cs : List Char) : Option String :=
  let boundary := match prev with
    | none => true
    | some c => !isWordChar c
  match cs with
  | [] => none
  | c :: _ =>
    if boundary && c.isDigit then
      let d1 := cs.takeWhile Char.isDigit
      let rest := cs.dropWhile Char.isDigit
      match rest with
      | '.' :: r2 =>
        let d2 := r2.takeWhile Char.isDigit
        let r3 := r2.dropWhile Char.isDigit
        if d2 ≠ [] ∧ (r3 = [] ∨ !isWordChar (r3.headD ' ')) then
          some (String.mk (d1 ++ '.' :: d2))
        else
          -- the char after the integer digits is '.', a non-word char,
          -- so the shorter alternative always matches
          some (String.mk d1)
      | r =>
        if r = [] ∨ !isWordChar (r.headD ' ') then some (String.mk d1) else none
    else none

/-- `re.search(r"\b(\d+(?:\.\d+)?)\b", message)` from
`ai_service._fallback_parse`: first match, scanning left to right. -/
def findAmount (prev : Option Char) (cs : List Char) : Option String :=
  match cs with
  | [] => none
  | c :: t =>
    match matchAmountAt prev cs with
    | some m => some m
    | none => findAmount (some c) t

/-- `ai_service._fallback_parse` (ai_service.py lines 131-173): deterministic
keyword parsing used when the LLM call fails. -/
def fallback_parse (message : String) : ParsedIntent :=
  let message_lower := toLowerStr message
  let has := fun k => strContains message_lower k
  let action :=
    if has "stake" ∧ ¬ has "unstake" then "stake"
    else if has "unstake" ∨ has "withdraw" then "withdraw"
    else if has "swap" ∨ has "trade" then "swap"
    else if has "lend" then "lend"
    else if has "borrow" then "borrow"
    else if has "claim" then "claim"
    else "unknown"
  let amount := findAmount none message.data
  let token := (["ETH", "SOMI", "USDC", "USDT", "DAI", "WETH"].find?
    (fun t => strContains message_lower (toLowerStr t)))
  { action := action
    protocol := "unknown"
    amount := amount
    token := token
    confidence := 3 / 10
    params := [("fallback", .vBool true), ("original_message", .vStr message)] }

/-- The dictionary the LLM's JSON reply decodes to, projected onto the keys
`ai_service.parse_user_intent` reads; a missing key is `none`. -/
structure LLMIntentJson where
  action : Option String := none
  protocol : Option String := none
  amount : Option String := none
  token : Option String := none
  params : Option (List (String × PyValue)) := none
  confidence : Option ℚ := none
deriving DecidableEq, Repr

/-- Outcome of the LLM interaction inside `parse_user_intent`'s `try` block:
the call and `json.loads` both succeed, or `json.loads` raises
`JSONDecodeError`, or any other exception is raised. -/
inductive LLMCall where
  | success : LLMIntentJson → LLMCall
  | badJson : LLMCall
  | failure : LLMCall
deriving DecidableEq, Repr

/-- `ai_service.parse_user_intent` (ai_service.py lines 21-129): build the
intent from the decoded JSON with per-key defaults; on `JSONDecodeError`
return a fixed zero-confidence unknown intent; on any other exception fall
back to keyword parsing. -/
def parse_user_intent (llm : LLMCall) (message : String) : ParsedIntent :=
  match llm with
  | .success j =>
    { action := j.action.getD "unknown"
      protocol := j.protocol.getD "unknown"
      amount := j.amount
      token := j.token
      params := j.params.getD []
      confidence := j.confidence.getD 1 }
  | .badJson =>
    { action := "unknown"
      protocol := "unknown"
      confidence := 0
      params := [("error", .vStr "Failed to parse AI response"), ("raw_message", .vStr message)] }
  | .failure => fallback_parse message

/-- 64-bit mask. -/
def mask64 : Nat := 2 ^ 64 - 1

/-- Rotate a 64-bit lane left by `n` (with `n < 64`). -/
def rotL64 (x n : Nat) : Nat :=
  ((x <<< n) ||| (x >>> (64 - n))) &&& mask64

/-- One step of the degree-8 LFSR generating the keccak `rc` bit stream. -/
def lfsrStep (r : Nat) : Nat :=
  let doubled := r <<< 1
  (if r &&& 0x80 ≠ 0 then doubled ^^^ 0x71 else doubled) &&& 0xFF

/-- The first `n` bits of the keccak `rc` sequence, from LFSR state `r`. -/
def rcStream : Nat → Nat → List Bool
  | 0, _ => []
  | n + 1, r => (r &&& 1 = 1) :: rcStream n (lfsrStep r)

/-- Keccak round constants: round `ir` sets bit `2^j - 1` to
`rc(j + 7*ir)` for `j = 0..6` (FIPS 202 §3.2.5). -/
def keccakRC : List Nat :=
  let bits := rcStream 168 1
  (List.range 24).map (fun ir =>
    (List.range 7).foldl
      (fun acc j => if bits.getD (7 * ir + j) false then acc ||| (1 <<< (2 ^ j - 1)) else acc) 0)

/-- Keccak rotation offsets, indexed by lane position `x + 5*y`: lane (0,0)
stays, and the π walk `(x,y) := (y, 2x+3y)` assigns the t-th triangular
number mod 64 at step t (FIPS 202 §3.2.2). -/
def keccakRho : List Nat :=
  ((List.range 24).foldl
    (fun (st : Nat × Nat × List Nat) t =>
      let x := st.1
      let y := st.2.1
      let acc := (st.2.2).set (x + 5 * y) (((t + 1) * (t + 2) / 2) % 64)
      (y, (2 * x + 3 * y) % 5, acc))
    (1, 0, List.replicate 25 0)).2.2

/-- θ step on a 25-lane state (lane `(x,y)` at index `x + 5*y`). -/
def keccakTheta (A : List Nat) : List Nat :=
  let lane := fun i => A.getD i 0
  let C := fun x => lane x ^^^ lane (x + 5) ^^^ lane (x + 10) ^^^ lane (x + 15) ^^^ lane (x + 20)
  let D := fun x => C ((x + 4) % 5) ^^^ rotL64 (C ((x + 1) % 5)) 1
  (List.range 25).map (fun i => lane i ^^^ D (i % 5))

/-- ρ and π steps combined: the lane landing at `(X,Y)` comes from
`(x, X)` with `x = (X + 3*Y) % 5`, rotated by its ρ offset. -/
def keccakRhoPi (A : List Nat) : List Nat :=
  (List.range 25).map (fun i =>
    let X := i % 5
    let Y := i / 5
    let x := (X + 3 * Y) % 5
    rotL64 (A.getD (x + 5 * X) 0) (keccakRho.getD (x + 5 * X) 0))

/-- χ step. -/
def keccakChi (B : List Nat) : List Nat :=
  (List.range 25).map (fun i =>
    let x := i % 5
    let y := i / 5
    let b := fun j => B.getD j 0
    b i ^^^ (((b ((x + 1) % 5 + 5 * y)) ^^^ mask64) &&& b ((x + 2) % 5 + 5 * y)))

/-- ι step. -/
def keccakIota (rc : Nat) (A : List Nat) : List Nat :=
  match A with
  | [] => []
  | a :: rest => (a ^^^ rc) :: rest

/-- The Keccak-f[1600] permutation: 24 rounds. -/
def keccakF (A : List Nat) : List Nat :=
  keccakRC.foldl (fun st rc => keccakIota rc (keccakChi (keccakRhoPi (keccakTheta st)))) A

/-- Split a byte list into chunks of 136 bytes (the Keccak-256 rate);
`fuel` bounds the recursion. -/
def chunks136 : Nat → List Nat → List (List Nat)
  | _, [] => []
  | 0, _ => []
  | fuel + 1, l => l.take 136 :: chunks136 fuel (l.drop 136)

/-- XOR one 136-byte block into the rate portion of the state,
little-endian bytes within each 64-bit lane. -/
def absorbBlock (st : List Nat) (blk : List Nat) : List Nat :=
  (List.range 25).map (fun i =>
    let lane := (List.range 8).foldl (fun acc j => acc ||| (blk.getD (8 * i + j) 0 <<< (8 * j))) 0
    st.getD i 0 ^^^ lane)

/-- Keccak-256 (the legacy Keccak used by Ethereum, domain byte `0x01`)
of a byte list, returning the 32 digest bytes. -/
def keccak256 (msg : List Nat) : List Nat :=
  let q := 136 - msg.length % 136
  let padded :=
    if q = 1 then msg ++ [0x81]
    else msg ++ (0x01 :: (List.replicate (q - 2) 0 ++ [0x80]))
  let blocks := chunks136 (padded.length + 1) padded
  let final := blocks.foldl (fun st blk => keccakF (absorbBlock st blk)) (List.replicate 25 0)
  (List.range 32).map (fun i => (final.getD (i / 8) 0 >>> (8 * (i % 8))) &&& 0xFF)

/-- One lowercase hex digit. -/
def hexDigit (n : Nat) : Char :=
  if n < 10 then Char.ofNat (48 + n) else Char.ofNat (87 + n)

/-- Lowercase hex rendering of a byte list (no prefix). -/
def bytesToHex (bs : List Nat) : String :=
  String.mk ((bs.map (fun b => [hexDigit (b / 16), hexDigit (b % 16)])).flatten)

/-- UTF-8 bytes of an ASCII string (code points below 128 encode as
themselves; all strings hashed here are ASCII). -/
def asciiBytes (s : String) : List Nat :=
  s.data.map Char.toNat

/-- `Web3.keccak(text=sig)[:4].hex()`: the 4-byte selector of a canonical
signature, as a `0x`-prefixed lowercase hex string (`HexBytes.hex()` includes
the prefix). -/
def selectorHex (sig : String) : String :=
  "0x" ++ bytesToHex ((keccak256 (asciiBytes sig)).take 4)

/-- One entry of `IntentService.function_mappings`. -/
structure FunctionInfo where
  name : String
  selector : String
  params : List String
deriving DecidableEq, Repr

/-- `IntentService.function_mappings` (intent_service.py lines 22-44), in
dictionary insertion order. -/
def function_mappings : List (String × FunctionInfo) :=
  [("stake", { name := "stake", selector := "0xa694fc3a", params := ["uint256"] }),
   ("withdraw", { name := "withdraw", selector := "0x2e1a7d4d", params := ["uint256"] }),
   ("claim", { name := "claimRewards", selector := "0x372500ab", params := [] }),
   ("swap", { name := "swapExactTokensForTokens", selector := "0x38ed1739",
              params := ["uint256", "uint256", "address[]", "address", "uint256"] })]

/-- `IntentService._map_action_to_function` (intent_service.py lines
121-133): table lookup, else synthesize a zero-argument function named after
the action with selector `Web3.keccak(text=f"(action)()")[:4].hex()`. -/
def map_action_to_function (action : String) : FunctionInfo :=
  match function_mappings.lookup action with
  | some info => info
  | none => { name := action, selector := selectorHex (action ++ "()"), params := [] }

/-- One named, typed ABI parameter (chat.py works with the raw
`(name, type)` dictionaries). -/
structure FunctionParam where
  name : String
  type : String
deriving DecidableEq, Repr

/-- One element of the `available_functions` list the chat endpoint builds
from `agent.functions` (name, typed inputs, mutability, authorization). -/
structure FuncEntry where
  name : String
  inputs : List FunctionParam
  stateMutability : String
  authorized : Bool
deriving DecidableEq, Repr

/-- One raw ABI item of `agent.abi` as chat.py reads it. -/
structure AbiItem where
  name : String
  type : String
  inputs : List FunctionParam
deriving DecidableEq, Repr

/-- The agent fields `send_chat_message` uses. -/
structure ChatAgent where
  target_address : String
  name : String
  functions : List FuncEntry
  abi : List AbiItem
deriving DecidableEq, Repr

/-- The parse-result dictionary flowing through the chat endpoint
(`functionName`, `requiresTransaction`, `response`, `params`,
`needsMoreInfo`), with each key's Python default. -/
structure ChatParsed where
  functionName : Option String := none
  requiresTransaction : Bool := false
  response : Option String := none
  params : List (String × PyValue) := []
  needsMoreInfo : Bool := false
deriving DecidableEq, Repr

/-- Python `str()` of a parameter value.  Float rendering is carried as the
rational's own printer; no claim inspects a float display. -/
def pyStr : PyValue → String
  | .vInt n => toString n
  | .vFloat q => toString q
  | .vBool b => if b then "True" else "False"
  | .vStr s => s
  | .vNone => "None"

/-- The denial message chat.py writes for an unauthorized function. -/
def unauthorizedMsg (fn : String) : String :=
  "Sorry, the function \x27" ++ fn ++
    "\x27 is not authorized for this agent. Please contact the agent owner to authorize it."

/-- Per-parameter coercion of `_parse_message_with_context` (chat.py lines
1001-1037): address placeholders and non-`0x` strings become the caller's
address; `uint256` values go through `coerceUint256`; other types pass
through. -/
def coerceParam (user_address : String) (param_type : String) (v : PyValue) : PyValue :=
  if param_type = "address" then
    match v with
    | .vStr s =>
      if ["user", "me", "my", "myself", "sender"].contains (toLowerStr s) ∨ ¬ s.startsWith "0x"
      then .vStr user_address
      else .vStr s
    | _ => v
  else if param_type = "uint256" then
    coerceUint256 v
  else v

/-- The coercion loop over the resolved function's typed inputs: each input
present in the params dictionary has its value rewritten. -/
def processParams (user_address : String) (inputs : List FunctionParam)
    (params : List (String × PyValue)) : List (String × PyValue) :=
  inputs.foldl
    (fun acc inp =>
      acc.map (fun kv => if kv.1 = inp.name then (kv.1, coerceParam user_address inp.type kv.2) else kv))
    params

/-- Names of the first `k` available functions, comma-joined (the
`", ".join(...)` snippets of the keyword parser). -/
def joinNames (k : Nat) (fns : List FuncEntry) : String :=
  String.intercalate ", " ((fns.take k).map (fun f => f.name))

/-- `func_name.lower() in function_map` where
`function_map = (f["name"].lower(): f for f in available_functions)`. -/
def inFunctionMap (available : List FuncEntry) (fname : String) : Bool :=
  available.any (fun f => toLowerStr f.name = toLowerStr fname)

/-- `function_map[func_name.lower()]`: dictionary comprehension keeps the
last entry with a given lowered name. -/
def functionMapGet (available : List FuncEntry) (fname : String) : Option FuncEntry :=
  available.reverse.find? (fun f => toLowerStr f.name = toLowerStr fname)

/-- The no-keyword-match reply of `_parse_message_with_keywords`. -/
def noKeywordMatch (available : List FuncEntry) : ChatParsed :=
  { response := some ("I\x27m not sure how to help with that. I can assist with: " ++
      joinNames 5 available ++ ". What would you like to do?") }

/-- `chat._parse_message_with_keywords` (chat.py lines 1054-1157): the
deterministic fallback parser.  It performs no authorization check. -/
def parse_message_with_keywords (message _user_address agent_name : String)
    (available : List FuncEntry) : ChatParsed :=
  let message_lower := toLowerStr message
  let greeting_keywords := ["hello", "hi", "hey", "greetings", "good morning",
    "good afternoon", "good evening"]
  let thanks_keywords := ["thank", "thanks", "appreciate"]
  let help_keywords := ["help", "what can you do", "capabilities", "features"]
  if greeting_keywords.any (fun k => strContains message_lower k) then
    { response := some ("Hello! I\x27m " ++ agent_name ++
        ", your AI assistant for interacting with smart contracts. I can help you with: " ++
        joinNames 8 available ++ ". Just ask me in natural language!") }
  else if thanks_keywords.any (fun k => strContains message_lower k) then
    { response := some "You\x27re welcome! Let me know if you need anything else." }
  else if help_keywords.any (fun k => strContains message_lower k) then
    { response := some ("I can help you interact with this smart contract. Available functions: " ++
        joinNames 8 available ++
        ". Try asking things like \x27What is my balance?\x27 or \x27Transfer tokens\x27.") }
  else
    let view_keywords := [("balance", "balanceOf"), ("allowance", "allowance"),
      ("total supply", "totalSupply"), ("decimals", "decimals"), ("name", "name"),
      ("symbol", "symbol"), ("owner", "owner")]
    let tx_keywords := [("transfer", "transfer"), ("send", "transfer"),
      ("approve", "approve"), ("mint", "mint"), ("stake", "stake"),
      ("withdraw", "withdraw"), ("swap", "swap")]
    match view_keywords.find?
        (fun kv => strContains message_lower kv.1 && inFunctionMap available kv.2) with
    | some kv =>
      { functionName := some kv.2,
        response := some ("I\x27ll check the " ++ kv.2 ++ " for you.") }
    | none =>
      match tx_keywords.find?
          (fun kv => strContains message_lower kv.1 && inFunctionMap available kv.2) with
      | some kv =>
        match functionMapGet available kv.2 with
        | some func_info =>
          if func_info.stateMutability = "pure" ∨ func_info.stateMutability = "view" then
            { functionName := some kv.2,
              response := some ("I\x27ll query the " ++ kv.2 ++ " function for you.") }
          else
            { functionName := some kv.2, requiresTransaction := true,
              response := some ("I\x27ll prepare a transaction to call " ++ kv.2 ++ ".") }
        | none => noKeywordMatch available
      | none => noKeywordMatch available

/-- `chat._parse_message_with_context` (chat.py lines 868-1051).  The whole
LLM interaction is the `llm` input: `.ok parsed` is the decoded JSON reply,
`.error ()` any exception in the try block (which falls back to keyword
parsing).  On success, post-validation nulls out an unauthorized function
name and otherwise coerces the parameters of the first catalog entry with
the parsed name. -/
def parse_message_with_context (llm : Except Unit ChatParsed)
    (message user_address agent_name : String) (available : List FuncEntry) : ChatParsed :=
  match llm with
  | .error _ => parse_message_with_keywords message user_address agent_name available
  | .ok parsed =>
    match parsed.functionName with
    | some fn =>
      if fn = "" then parsed
      else
        match available.find? (fun f => f.name = fn) with
        | some func =>
          if ¬ func.authorized then
            { parsed with response := some (unauthorizedMsg fn), functionName := none }
          else
            { parsed with params := processParams user_address func.inputs parsed.params }
        | none => parsed
    | none => parsed

/-- External effects of `chat._execute_read_query`: `pre` is the client
initialization plus agent-cache read (any raised exception carries its
text); `abiOk` is `agent_data and agent_data.get("abi")`; `call f` is the
contract call issued for function `f` (arguments as in the source); `fmt4`
models the Python `"...:.4f"` float rendering. -/
structure ReadEnv where
  pre : Except String Unit
  abiOk : Bool
  call : String → Except String PyValue
  fmt4 : ℚ → String

/-- Numeric content for the division in the balance/supply formatting
(Python would raise for non-numeric operands, which the surrounding bare
`except` then swallows). -/
def toNumQ : PyValue → Option ℚ
  | .vInt n => some (n : ℚ)
  | .vFloat q => some q
  | .vBool b => some (if b then 1 else 0)
  | _ => none

/-- Integer exponent for `10**decimals`. -/
def toNumZ : PyValue → Option Int
  | .vInt n => some n
  | .vBool b => some (if b then 1 else 0)
  | _ => none

/-- The body of `chat._execute_read_query`'s `try` block (chat.py lines
1170-1239): dispatch on the function name with bespoke formatting;
`.error e` is an exception escaping to the outer handler. -/
def readQueryBody (env : ReadEnv) (function_name _user_address : String) :
    Except String String :=
  match env.pre with
  | .error e => .error e
  | .ok _ =>
    if ¬ env.abiOk then .ok "Error: Contract ABI not available"
    else if function_name = "balanceOf" then
      match env.call "balanceOf" with
      | .error e => .error e
      | .ok result =>
        let inner : Option String :=
          match env.call "decimals" with
          | .ok d =>
            match toNumQ result, toNumZ d with
            | some rq, some dz =>
              some ("Your balance is " ++ env.fmt4 (rq / (10 : ℚ) ^ dz) ++
                " tokens (raw: " ++ pyStr result ++ ")")
            | _, _ => none
          | .error _ => none
        .ok (inner.getD ("Your balance is " ++ pyStr result ++ " (raw amount)"))
    else if function_name = "totalSupply" then
      match env.call "totalSupply" with
      | .error e => .error e
      | .ok result =>
        let inner : Option String :=
          match env.call "decimals" with
          | .ok d =>
            match toNumQ result, toNumZ d with
            | some rq, some dz =>
              some ("Total supply is " ++ env.fmt4 (rq / (10 : ℚ) ^ dz) ++
                " tokens (raw: " ++ pyStr result ++ ")")
            | _, _ => none
          | .error _ => none
        .ok (inner.getD ("Total supply is " ++ pyStr result ++ " (raw amount)"))
    else if function_name = "decimals" then
      match env.call "decimals" with
      | .error e => .error e
      | .ok r => .ok ("This token uses " ++ pyStr r ++ " decimals")
    else if function_name = "name" then
      match env.call "name" with
      | .error e => .error e
      | .ok r => .ok ("Token name: " ++ pyStr r)
    else if function_name = "symbol" then
      match env.call "symbol" with
      | .error e => .error e
      | .ok r => .ok ("Token symbol: " ++ pyStr r)
    else if function_name = "owner" then
      match env.call "owner" with
      | .error e => .error e
      | .ok r => .ok ("Contract owner: " ++ pyStr r)
    else if function_name = "allowance" then
      .ok "To check allowance, please specify: \x27Check allowance for [spender address]\x27"
    else
      match env.call function_name with
      | .error e => .error e
      | .ok r => .ok (function_name ++ " returned: " ++ pyStr r)

/-- The deployment-hint error string of `_execute_read_query`'s handler. -/
def deploymentHintMsg (target : String) : String :=
  "⚠️ The target contract at " ++ target ++
    " is not deployed or not accessible on the current network. Please verify the contract address and ensure it\x27s deployed on Somnia Testnet (Chain ID: 50312)."

/-- `chat._execute_read_query` (chat.py lines 1160-1249): run the body; any
exception is rendered — with the target address and a deployment hint only
when the error text contains one of two markers, otherwise as a generic
`Error querying ...` string. -/
def execute_read_query (env : ReadEnv) (agent : ChatAgent)
    (function_name user_address : String) : String :=
  match readQueryBody env function_name user_address with
  | .ok s => s
  | .error e =>
    let error_msg := toLowerStr e
    if strContains error_msg "is contract deployed" ∨ strContains error_msg "could not transact"
    then deploymentHintMsg agent.target_address
    else "Error querying " ++ function_name ++ ": " ++ e

/-- The `preparedTransaction` object the frontend chat endpoint returns. -/
structure FrontendTx where
  «to» : String
  data : String
  value : String
  functionName : String
  description : String
  params : List (String × PyValue)
deriving DecidableEq, Repr

/-- Result of the frontend chat endpoint: an HTTP error, a plain reply
(`isPreparedTransaction=false`), or a reply carrying a prepared transaction
(`isPreparedTransaction=true`). -/
inductive ChatResult where
  | http : Nat → String → ChatResult
  | reply : String → ChatResult
  | prepared : String → FrontendTx → ChatResult
deriving DecidableEq, Repr

/-- Ordered argument extraction before encoding (chat.py lines 712-727);
a missing or `None` parameter raises `ValueError`. -/
def buildParamValues : List FunctionParam → List (String × PyValue) →
    Except String (List PyValue)
  | [], _ => .ok []
  | inp :: rest, ps =>
    match ps.lookup inp.name with
    | none => .error ("Missing required parameter: " ++ inp.name)
    | some .vNone => .error ("Missing required parameter: " ++ inp.name)
    | some v => (buildParamValues rest ps).map (fun vs => v :: vs)

/-- The display-formatting loop (chat.py lines 739-750): `uint256` integer
values are shown as `fmtTokens` (the `f"(v / 10**18):.2f tokens"`
rendering); everything else is kept. -/
def displayParams (fmtTokens : Int → String) (inputs : List FunctionParam)
    (params : List (String × PyValue)) : List (String × PyValue) :=
  params.map (fun kv =>
    match inputs.find? (fun p => p.name = kv.1) with
    | some pd =>
      if pd.type = "uint256" then
        match kv.2 with
        | .vInt n => (kv.1, .vStr (fmtTokens n))
        | .vBool b => (kv.1, .vStr (fmtTokens (if b then 1 else 0)))
        | _ => kv
      else kv
    | none => kv)

/-- The human-readable success message (chat.py lines 752-762). -/
def buildSuccessMsg (fmtTokens : Int → String) (fn : String)
    (inputs : List FunctionParam) (params : List (String × PyValue)) : String :=
  let dp := displayParams fmtTokens inputs params
  if fn = "mint" then
    "✅ Transaction prepared! Ready to mint " ++ pyStr ((dp.lookup "amount").getD (.vStr "tokens")) ++
      " to " ++ pyStr ((dp.lookup "to").getD (.vStr "address")) ++ ". Please review and sign."
  else if fn = "transfer" then
    "✅ Transaction prepared! Ready to transfer " ++ pyStr ((dp.lookup "amount").getD (.vStr "tokens")) ++
      " to " ++ pyStr ((dp.lookup "to").getD (.vStr "address")) ++ ". Please review and sign."
  else
    "✅ Transaction prepared! Ready to call " ++ fn ++ ". Please review and sign."

/-- `chat.send_chat_message` (chat.py lines 506-865), the frontend chat
endpoint.  `encodeTx fn vals` models the web3 calldata encoding
(`function_obj._encode_transaction_data()`), which may raise.  Database
writes are side effects with no bearing on the returned value and are not
modelled.  This path never calls `detect_contract_type` or the execution
service: on success the destination is always the agent's target contract. -/
def send_chat_message_body (agent : ChatAgent) (llm : Except Unit ChatParsed)
    (encodeTx : String → List PyValue → Except String String)
    (env : ReadEnv) (fmtTokens : Int → String)
    (message user_address : String) : ChatResult :=
    let available := agent.functions
    if available.isEmpty then
      .reply "Sorry, I don\x27t have access to the contract\x27s functions. Please make sure the agent has a valid ABI configured."
    else
      let parsed := parse_message_with_context llm message user_address agent.name available
      let requires_tx := parsed.requiresTransaction
      if parsed.needsMoreInfo then
        .reply (parsed.response.getD "I need more information to proceed.")
      else
        match parsed.functionName with
        | some fn =>
          if fn = "" then
            -- a falsy function name fires none of the function branches
            .reply (parsed.response.getD "Query processed")
          else
            match available.find? (fun f => f.name = fn) with
            | none =>
              .reply ("Sorry, the function \x27" ++ fn ++ "\x27 is not available on this contract.")
            | some matching_func =>
              if ¬ matching_func.authorized then
                .reply (unauthorizedMsg fn)
              else if requires_tx then
                match agent.abi.find? (fun it => it.name = fn && it.type = "function") with
                | none => .reply ("Function " ++ fn ++ " not found in contract ABI")
                | some func_abi =>
                  let function_params := parsed.params
                  let missing := (func_abi.inputs.filter (fun p =>
                    match function_params.lookup p.name with
                    | none => true
                    | some .vNone => true
                    | some _ => false)).map (fun p => p.name ++ " (" ++ p.type ++ ")")
                  if ¬ missing.isEmpty then
                    .reply ("I need the following parameters to proceed: " ++
                      String.intercalate ", " missing ++ ". Could you provide them?")
                  else
                    match buildParamValues func_abi.inputs function_params with
                    | .error e => .reply ("Error preparing transaction: " ++ e)
                    | .ok param_values =>
                      match encodeTx fn param_values with
                      | .error e => .reply ("Error preparing transaction: " ++ e)
                      | .ok encoded_data =>
                        let response_msg := buildSuccessMsg fmtTokens fn func_abi.inputs function_params
                        .prepared response_msg
                          { «to» := agent.target_address
                            data := encoded_data
                            value := "0x0"
                            functionName := fn
                            description := response_msg
                            params := function_params }
              else
                .reply (execute_read_query env agent fn user_address)
        | none => .reply (parsed.response.getD "Query processed")

/-- `chat.send_chat_message`: 404 when the agent lookup fails, otherwise the
endpoint body above. -/
def send_chat_message (agentOpt : Option ChatAgent) (llm : Except Unit ChatParsed)
    (encodeTx : String → List PyValue → Except String String)
    (env : ReadEnv) (fmtTokens : Int → String)
    (message user_address : String) : ChatResult :=
  match agentOpt with
  | none => .http 404 "Agent not found"
  | some agent =>
    send_chat_message_body agent llm encodeTx env fmtTokens message user_address

/-! ## Theorems -/

/-- Sanity anchor for the keccak embedding: the four hard-coded selectors in
`IntentService.function_mappings` equal the keccak selectors of the canonical
signatures named in the source comments. -/
theorem function_mappings_selectors_match :
    selectorHex "stake(uint256)" = "0xa694fc3a" ∧
    selectorHex "withdraw(uint256)" = "0x2e1a7d4d" ∧
    selectorHex "claimRewards()" = "0x372500ab" ∧
    selectorHex "swapExactTokensForTokens(uint256,uint256,address[],address,uint256)"
      = "0x38ed1739" := by
  refine ⟨?_, ?_, ?_, ?_⟩ <;> decide

/-- Claim C3: `detect_contract_type` returns "regular" whenever the
`trustedHub()` probe raises or returns the zero address, returns "hub-aware"
exactly for a non-zero returned address, and — being a total function of the
probe's outcome — never raises. -/
theorem detect_contract_type_spec :
    (∀ e : String, detect_contract_type (.error e) = "regular") ∧
    detect_contract_type (.ok 0) = "regular" ∧
    (∀ a : Nat, a ≠ 0 → detect_contract_type (.ok a) = "hub-aware") := by
  refine ⟨fun e => rfl, rfl, fun a ha => ?_⟩
  simp [detect_contract_type, ha]

/-- Witness for C3 at the concrete probe result 7. -/
theorem detect_contract_type_spec_witness :
    (7 : Nat) ≠ 0 ∧ detect_contract_type (.ok 7) = "hub-aware" :=
  ⟨by decide, detect_contract_type_spec.2.2 7 (by decide)⟩

/-- Claim C4: gas-estimation failure yields the fixed default 500000 on the
hub route and 300000 on the direct route; gas-price failure yields an
envelope with no gas price; both preparations are total functions of their
inputs, so neither failure aborts the request. -/
theorem gas_defaults_spec :
    ∀ (hub_address : String) (req : TransactionRequest) (intent : Option ParsedIntent)
      (hub_data e f : String) (gp ge : Except String Nat),
      (prepare_hub_transaction hub_address req intent hub_data (.error e) gp).gas = 500000 ∧
      (prepare_direct_transaction req intent (.error e) gp).gas = 300000 ∧
      (prepare_hub_transaction hub_address req intent hub_data ge (.error f)).gas_price = none ∧
      (prepare_direct_transaction req intent ge (.error f)).gas_price = none := by
  intro hub_address req intent hub_data e f gp ge
  refine ⟨rfl, rfl, rfl, rfl⟩

/-- Claim C5: every envelope built by the execution service has destination
the configured hub address on the hub route and the request's target
contract address on the direct route. -/
theorem destination_invariant :
    ∀ (hub_address : String) (req : TransactionRequest) (intent : Option ParsedIntent)
      (hub_data : String) (ge gp : Except String Nat),
      ((prepare_transaction hub_address req intent hub_data ge gp).route = "hub" →
        (prepare_transaction hub_address req intent hub_data ge gp).«to» = hub_address) ∧
      ((prepare_transaction hub_address req intent hub_data ge gp).route = "direct" →
        (prepare_transaction hub_address req intent hub_data ge gp).«to» = req.target_address) := by
  intro hub_address req intent hub_data ge gp
  by_cases h : req.execution_mode = "hub" <;>
    simp [prepare_transaction, h, prepare_hub_transaction, prepare_direct_transaction]

/-- Witness for C5: one concrete hub-mode request and one direct-mode
request. -/
theorem destination_invariant_witness :
    (prepare_transaction "0xHUB"
      { agent_id := "a", target_address := "0xT", function_name := "f",
        function_selector := "0xs", calldata := "0xc", execution_mode := "hub" }
      none "0xd" (.ok 1) (.ok 1)).«to» = "0xHUB" ∧
    (prepare_transaction "0xHUB"
      { agent_id := "a", target_address := "0xT", function_name := "f",
        function_selector := "0xs", calldata := "0xc", execution_mode := "direct" }
      none "0xd" (.ok 1) (.ok 1)).«to» = "0xT" :=
  ⟨(destination_invariant "0xHUB"
      { agent_id := "a", target_address := "0xT", function_name := "f",
        function_selector := "0xs", calldata := "0xc", execution_mode := "hub" }
      none "0xd" (.ok 1) (.ok 1)).1 (by decide),
   (destination_invariant "0xHUB"
      { agent_id := "a", target_address := "0xT", function_name := "f",
        function_selector := "0xs", calldata := "0xc", execution_mode := "direct" }
      none "0xd" (.ok 1) (.ok 1)).2 (by decide)⟩

/-- Claim C2, counterexample: the decimal string "1.5" is NOT scaled — the
Python `int("1.5")` raises, the handler keeps the original value — whereas
the claim requires the integer 1.5·10¹⁸. -/
theorem coerce_decimal_string_counterexample :
    coerceUint256 (.vStr "1.5") = .vStr "1.5" ∧
    coerceUint256 (.vStr "1.5") ≠ .vInt 1500000000000000000 := by
  exact ⟨by decide, by decide⟩

/-- Claim C2 as amended: int values and integer-format strings are replaced
by the value times 10¹⁸ as an integer; float values are multiplied by 10¹⁸
remaining floats; strings `int(...)` rejects (decimal strings included) are
left untouched; the coercion is a total function, so nothing raises. -/
theorem coerceUint256_spec :
    (∀ n : Int, coerceUint256 (.vInt n) = .vInt (n * 10 ^ 18)) ∧
    (∀ q : ℚ, coerceUint256 (.vFloat q) = .vFloat (q * 10 ^ 18)) ∧
    (∀ s n, pyIntOfString s = some n → coerceUint256 (.vStr s) = .vInt (n * 10 ^ 18)) ∧
    (∀ s, pyIntOfString s = none → coerceUint256 (.vStr s) = .vStr s) := by
  refine ⟨fun n => rfl, fun q => rfl, fun s n h => ?_, fun s h => ?_⟩ <;>
    simp [coerceUint256, h]

/-- Witness for C2 (amended) at the integer string "7". -/
theorem coerceUint256_spec_witness :
    pyIntOfString "7" = some 7 ∧ coerceUint256 (.vStr "7") = .vInt (7 * 10 ^ 18) :=
  ⟨by decide, coerceUint256_spec.2.2.1 "7" 7 (by decide)⟩

/-- Claim C7: on every numeric raw amount (int, float, or integer-format
string) applying the uint256 scaling rule twice yields exactly 10¹⁸ times
the value obtained by applying it once (floats modelled as exact
rationals). -/
theorem coerce_twice_scales :
    ∀ v : PyValue, isNumericRaw v = true →
      valueToRat (coerceUint256 (coerceUint256 v)) =
        (valueToRat (coerceUint256 v)).map (fun q => 10 ^ 18 * q) := by
  intro v h
  cases v with
  | vInt n =>
    simp [coerceUint256, valueToRat]
    ring
  | vFloat q =>
    simp [coerceUint256, valueToRat]
    ring
  | vBool b => simp [isNumericRaw] at h
  | vStr s =>
    cases hp : pyIntOfString s with
    | none => simp [isNumericRaw, hp] at h
    | some n =>
      simp [coerceUint256, hp, valueToRat]
      ring
  | vNone => simp [isNumericRaw] at h

/-- Witness for C7 at the raw amount "100". -/
theorem coerce_twice_scales_witness :
    isNumericRaw (.vStr "100") = true ∧
    valueToRat (coerceUint256 (coerceUint256 (.vStr "100"))) =
      (valueToRat (coerceUint256 (.vStr "100"))).map (fun q => 10 ^ 18 * q) :=
  ⟨by decide, coerce_twice_scales (.vStr "100") (by decide)⟩

/-- Claim C10: an action absent from `function_mappings` is synthesized, not
rejected: the resolved descriptor carries the action as name, no parameters,
and the selector is the first 4 bytes of keccak-256 of `"<action>()"`. -/
theorem map_action_default_spec :
    ∀ action : String, function_mappings.lookup action = none →
      map_action_to_function action =
        { name := action, selector := selectorHex (action ++ "()"), params := [] } := by
  intro action h
  simp [map_action_to_function, h]

/-- Witness for C10 at the unmapped action "foo"; `0xc2985578` is the
keccak selector of `foo()`. -/
theorem map_action_default_spec_witness :
    function_mappings.lookup "foo" = none ∧
    map_action_to_function "foo" = { name := "foo", selector := "0xc2985578", params := [] } :=
  ⟨by decide, (map_action_default_spec "foo" (by decide)).trans (by decide)⟩

/-- Claim C6, counterexample: when the LLM reply is malformed JSON the
parser does NOT return the keyword fallback's intent with confidence 0.3; it
returns the fixed zero-confidence unknown intent. -/
theorem llm_badjson_counterexample :
    parse_user_intent .badJson "stake 100 SOMI" ≠ fallback_parse "stake 100 SOMI" ∧
    (parse_user_intent .badJson "stake 100 SOMI").confidence = 0 ∧
    (fallback_parse "stake 100 SOMI").confidence = 3 / 10 := by
  refine ⟨by decide, rfl, rfl⟩

/-- Claim C6 as amended: any LLM-path exception other than a JSON-decode
failure makes `parse_user_intent` return the deterministic keyword
fallback's intent, whose confidence is the fixed constant 0.3; a
JSON-decode failure instead yields a fixed "unknown" intent with confidence
0.0; both branches are total, so nothing raises. -/
theorem parse_user_intent_fallback_spec :
    (∀ m, parse_user_intent .failure m = fallback_parse m) ∧
    (∀ m, (fallback_parse m).confidence = 3 / 10) ∧
    (∀ m, (parse_user_intent .badJson m).action = "unknown" ∧
      (parse_user_intent .badJson m).confidence = 0) :=
  ⟨fun _ => rfl, fun _ => rfl, fun _ => ⟨rfl, rfl⟩⟩

/-- Claim C1, counterexample: on the keyword-fallback parsing path no
authorization check runs.  With a catalog whose only `transfer` entry has
`authorized = false`, the fallback still returns
`functionName = "transfer"` (and a prepare-transaction reply, not a
denial). -/
theorem keyword_path_no_auth_check_counterexample :
    (parse_message_with_context (.error ()) "transfer tokens" "0xUSER" "MyAgent"
      [{ name := "transfer",
         inputs := [{ name := "to", type := "address" }, { name := "amount", type := "uint256" }],
         stateMutability := "nonpayable", authorized := false }]).functionName
      = some "transfer" ∧
    ([{ name := "transfer",
        inputs := [{ name := "to", type := "address" }, { name := "amount", type := "uint256" }],
        stateMutability := "nonpayable", authorized := false }] : List FuncEntry).find?
      (fun f => f.name = "transfer")
      = some { name := "transfer",
               inputs := [{ name := "to", type := "address" },
                          { name := "amount", type := "uint256" }],
               stateMutability := "nonpayable", authorized := false } := by
  exact ⟨by decide, by decide⟩

/-- Claim C1 as amended: on the LLM parsing path (a successfully decoded
reply), a parse result naming a function whose first catalog match has
`authorized = false` is post-validated to `functionName = none` with the
denial reply; the keyword-fallback path performs no such check. -/
theorem llm_path_unauthorized_nulls_function :
    ∀ (parsed : ChatParsed) (available : List FuncEntry)
      (message ua an fn : String) (f : FuncEntry),
      parsed.functionName = some fn → fn ≠ "" →
      available.find? (fun g => g.name = fn) = some f → f.authorized = false →
      (parse_message_with_context (.ok parsed) message ua an available).functionName = none ∧
      (parse_message_with_context (.ok parsed) message ua an available).response
        = some (unauthorizedMsg fn) := by
  intro parsed available message ua an fn f h1 h2 h3 h4
  simp [parse_message_with_context, h1, h2, h3, h4]

/-- Witness for C1 (amended): a concrete LLM reply naming the unauthorized
`transfer` is nulled out and answered with the denial message. -/
theorem llm_path_unauthorized_nulls_function_witness :
    (parse_message_with_context
      (.ok { functionName := some "transfer", requiresTransaction := true,
             response := some "ok", params := [], needsMoreInfo := false })
      "transfer tokens" "0xUSER" "MyAgent"
      [{ name := "transfer", inputs := [], stateMutability := "nonpayable",
         authorized := false }]).functionName = none ∧
    (parse_message_with_context
      (.ok { functionName := some "transfer", requiresTransaction := true,
             response := some "ok", params := [], needsMoreInfo := false })
      "transfer tokens" "0xUSER" "MyAgent"
      [{ name := "transfer", inputs := [], stateMutability := "nonpayable",
         authorized := false }]).response = some (unauthorizedMsg "transfer") :=
  llm_path_unauthorized_nulls_function
    { functionName := some "transfer", requiresTransaction := true,
      response := some "ok", params := [], needsMoreInfo := false }
    [{ name := "transfer", inputs := [], stateMutability := "nonpayable", authorized := false }]
    "transfer tokens" "0xUSER" "MyAgent" "transfer"
    { name := "transfer", inputs := [], stateMutability := "nonpayable", authorized := false }
    rfl (by decide) (by decide) rfl

/-- A list is a prefix of itself followed by anything. -/
theorem isPrefixOf_self_append (l t : List Char) : l.isPrefixOf (l ++ t) = true := by
  induction l with
  | nil => simp [List.isPrefixOf]
  | cons c rest ih => simp [List.isPrefixOf, ih]

/-- A list occurs inside any list that contains it contiguously. -/
theorem listIsInfixOf_append (x a b : List Char) : listIsInfixOf x (a ++ (x ++ b)) = true := by
  induction a with
  | nil =>
    cases hx : x ++ b with
    | nil =>
      have : x = [] := by
        cases x with
        | nil => rfl
        | cons c t => simp at hx
      simp [this, listIsInfixOf]
    | cons c t =>
      simp only [List.nil_append, hx, listIsInfixOf]
      rw [← hx, isPrefixOf_self_append]
      simp
  | cons c rest ih =>
    simp only [List.cons_append, listIsInfixOf, List.append_eq]
    rw [ih]
    simp

/-- Claim C8, counterexample: a read-query failure whose error text lacks
the deployment markers is rendered as a generic string that mentions
neither the target contract address nor the deployment hint. -/
theorem read_query_generic_error_counterexample :
    execute_read_query
      { pre := .ok (), abiOk := true, call := fun _ => .error "execution reverted",
        fmt4 := fun _ => "" }
      { target_address := "0xTARGET1234", name := "A", functions := [], abi := [] }
      "balanceOf" "0xUSER"
      = "Error querying balanceOf: execution reverted" ∧
    strContains "Error querying balanceOf: execution reverted" "0xTARGET1234" = false := by
  exact ⟨by decide, by decide⟩

/-- Claim C8 as amended: every exception escaping the read-query body is
caught and rendered as an error string (the executor is a total function of
its inputs — nothing propagates); the string carries the target address and
the not-deployed hint exactly when the lowered error text contains
"is contract deployed" or "could not transact", and is the generic
`Error querying <fn>: <detail>` string otherwise. -/
theorem read_query_error_handling :
    ∀ (env : ReadEnv) (agent : ChatAgent) (fn ua e : String),
      readQueryBody env fn ua = .error e →
      execute_read_query env agent fn ua =
        (if strContains (toLowerStr e) "is contract deployed"
            ∨ strContains (toLowerStr e) "could not transact"
         then deploymentHintMsg agent.target_address
         else "Error querying " ++ fn ++ ": " ++ e) ∧
      strContains (deploymentHintMsg agent.target_address) agent.target_address = true := by
  intro env agent fn ua e h
  constructor
  · simp only [execute_read_query, h]
  · show strContains
      ("⚠️ The target contract at " ++ agent.target_address ++
        " is not deployed or not accessible on the current network. Please verify the contract address and ensure it\x27s deployed on Somnia Testnet (Chain ID: 50312).")
      agent.target_address = true
    unfold strContains
    rw [String.data_append, String.data_append, List.append_assoc]
    exact listIsInfixOf_append _ _ _

/-- Witness for C8 (amended): a failure carrying the "could not transact"
marker renders the deployment hint with the target address. -/
theorem read_query_error_handling_witness :
    execute_read_query
      { pre := .ok (), abiOk := true, call := fun _ => .error "could not transact",
        fmt4 := fun _ => "" }
      { target_address := "0xTGT", name := "A", functions := [], abi := [] }
      "balanceOf" "0xUSER" = deploymentHintMsg "0xTGT" ∧
    strContains (deploymentHintMsg "0xTGT") "0xTGT" = true :=
  have h := read_query_error_handling
    { pre := .ok (), abiOk := true, call := fun _ => .error "could not transact",
      fmt4 := fun _ => "" }
    { target_address := "0xTGT", name := "A", functions := [], abi := [] }
    "balanceOf" "0xUSER" "could not transact" rfl
  ⟨h.1.trans (by decide), h.2⟩

/-- The endpoint body only ever emits a prepared transaction destined for
the agent's target contract with zero value. -/
theorem send_chat_message_body_prepared :
    ∀ (agent : ChatAgent) (llm : Except Unit ChatParsed)
      (encodeTx : String → List PyValue → Except String String)
      (env : ReadEnv) (fmtTokens : Int → String) (message ua r : String) (tx : FrontendTx),
      send_chat_message_body agent llm encodeTx env fmtTokens message ua = .prepared r tx →
      tx.«to» = agent.target_address ∧ tx.value = "0x0" := by
  intro agent llm encodeTx env fmtTokens message ua r tx h
  simp only [send_chat_message_body] at h
  repeat' split at h
  all_goals first
    | exact ChatResult.noConfusion h
    | (injection h with h1 h2
       rw [← h2]
       exact ⟨rfl, rfl⟩)

/-- Claim C9: whenever the frontend chat endpoint returns a prepared
transaction, its destination is the agent's target contract address and its
value is "0x0" — for every agent (hub-aware or not), every LLM outcome and
every encoding environment; this path takes no contract-type input at all,
so detection is never consulted and the hub route never taken. -/
theorem frontend_tx_destination :
    ∀ (agent : ChatAgent) (llm : Except Unit ChatParsed)
      (encodeTx : String → List PyValue → Except String String)
      (env : ReadEnv) (fmtTokens : Int → String) (message ua r : String) (tx : FrontendTx),
      send_chat_message (some agent) llm encodeTx env fmtTokens message ua = .prepared r tx →
      tx.«to» = agent.target_address ∧ tx.value = "0x0" := by
  intro agent llm encodeTx env fmtTokens message ua r tx h
  exact send_chat_message_body_prepared agent llm encodeTx env fmtTokens message ua r tx h

/-- Witness for C9: a full concrete request — authorized nonpayable
`stake(uint256)`, LLM reply with all parameters — produces a prepared
transaction destined for the target contract with zero value. -/
theorem frontend_tx_destination_witness :
    send_chat_message
      (some { target_address := "0xTARGET", name := "Agent",
              functions := [{ name := "stake",
                              inputs := [{ name := "amount", type := "uint256" }],
                              stateMutability := "nonpayable", authorized := true }],
              abi := [{ name := "stake", type := "function",
                        inputs := [{ name := "amount", type := "uint256" }] }] })
      (.ok { functionName := some "stake", requiresTransaction := true, response := some "ok",
             params := [("amount", .vStr "100")], needsMoreInfo := false })
      (fun _ _ => .ok "0xa694fc3adead")
      { pre := .ok (), abiOk := true, call := fun _ => .error "x", fmt4 := fun _ => "" }
      (fun _ => "100.00 tokens") "stake 100" "0xUSER"
      = .prepared "✅ Transaction prepared! Ready to call stake. Please review and sign."
          { «to» := "0xTARGET", data := "0xa694fc3adead", value := "0x0",
            functionName := "stake",
            description := "✅ Transaction prepared! Ready to call stake. Please review and sign.",
            params := [("amount", .vInt 100000000000000000000)] } ∧
    (FrontendTx.mk "0xTARGET" "0xa694fc3adead" "0x0" "stake"
        "✅ Transaction prepared! Ready to call stake. Please review and sign."
        [("amount", .vInt 100000000000000000000)]).«to» = "0xTARGET" ∧
    (FrontendTx.mk "0xTARGET" "0xa694fc3adead" "0x0" "stake"
        "✅ Transaction prepared! Ready to call stake. Please review and sign."
        [("amount", .vInt 100000000000000000000)]).value = "0x0" :=
  ⟨by decide,
   frontend_tx_destination
     { target_address := "0xTARGET", name := "Agent",
       functions := [{ name := "stake", inputs := [{ name := "amount", type := "uint256" }],
                       stateMutability := "nonpayable", authorized := true }],
       abi := [{ name := "stake", type := "function",
                 inputs := [{ name := "amount", type := "uint256" }] }] }
     (.ok { functionName := some "stake", requiresTransaction := true, response := some "ok",
            params := [("amount", .vStr "100")], needsMoreInfo := false })
     (fun _ _ => .ok "0xa694fc3adead")
     { pre := .ok (), abiOk := true, call := fun _ => .error "x", fmt4 := fun _ => "" }
     (fun _ => "100.00 tokens") "stake 100" "0xUSER"
     "✅ Transaction prepared! Ready to call stake. Please review and sign."
     (FrontendTx.mk "0xTARGET" "0xa694fc3adead" "0x0" "stake"
        "✅ Transaction prepared! Ready to call stake. Please review and sign."
        [("amount", .vInt 100000000000000000000)])
     (by decide)⟩
